import Mathlib

/-!
Verification of the resilience core of the `nestjs-powertools` repository:
the `CircuitBreaker` state machine and `ResilientHttpService.applyRetryLogic`
(both in the resilient HTTP service file), and the `RateLimitGuard`
(`src/guards/rate-limit.guard.ts`).

The embedding is shallow: timestamps are `Nat` milliseconds (`Date.now()`),
the jitter random source (`Math.random()`, a value in `[0, 1)`) and the
fractional delay arithmetic of the rate-limit guard are modelled over `ℚ`,
and an asynchronous unit of work is a value of `Except JsError Unit`
describing the outcome the work would have on its next invocation.
-/

/-- A JavaScript error value as the resilience core inspects it:
`name` (the constructor kind, `"Error"` for a plain `new Error(...)`),
`message`, the optional `error.response?.status` used by the default retry
condition, and the optional `error.code` (for example `"ECONNRESET"`). -/
structure JsError where
  name : String
  message : String
  status : Option Nat
  code : Option String
deriving DecidableEq, Repr

/-- `CircuitBreakerState` from the hooks type definitions. -/
inductive CircuitBreakerState where
  | CLOSED
  | OPEN
  | HALF_OPEN
deriving DecidableEq, Repr

/-- `CircuitBreakerConfig` after the constructor has merged the defaults
`{failureThreshold: 5, resetTimeout: 60000, monitoringPeriod: 30000}` with
the caller's partial config.  The fallback handler, when present, is a
function of the open-circuit error returning either a fallback value or a
thrown fallback error. -/
structure CircuitBreakerConfig where
  failureThreshold : Nat := 5
  resetTimeout : Nat := 60000
  monitoringPeriod : Nat := 30000
  fallbackHandler : Option (JsError → Except JsError Unit) := none

/-- The mutable fields of a `CircuitBreaker` instance, plus its config. -/
structure CircuitBreaker where
  state : CircuitBreakerState
  failureCount : Nat
  successCount : Nat
  lastFailureTime : Option Nat
  nextAttemptTime : Option Nat
  config : CircuitBreakerConfig

/-- A freshly constructed breaker: `state = 'CLOSED'`, both counters `0`,
no recorded timestamps. -/
def mkCircuitBreaker (config : CircuitBreakerConfig) : CircuitBreaker :=
  { state := .CLOSED
    failureCount := 0
    successCount := 0
    lastFailureTime := none
    nextAttemptTime := none
    config := config }

namespace CircuitBreaker

/-- `shouldAttemptReset`: false when `nextAttemptTime` is unset, otherwise
`Date.now() >= nextAttemptTime`. -/
def shouldAttemptReset (cb : CircuitBreaker) (now : Nat) : Bool :=
  match cb.nextAttemptTime with
  | none => false
  | some t => now ≥ t

/-- The error constructed by `handleOpenCircuit`:
`new Error('Circuit breaker is OPEN')` — a plain generic `Error`. -/
def openCircuitError : JsError :=
  { name := "Error", message := "Circuit breaker is OPEN", status := none, code := none }

/-- `onSuccess`: increment `successCount`; when in HALF_OPEN, close the
circuit and reset `failureCount` to 0. -/
def onSuccess (cb : CircuitBreaker) : CircuitBreaker :=
  let cb := { cb with successCount := cb.successCount + 1 }
  if cb.state = .HALF_OPEN then
    { cb with state := .CLOSED, failureCount := 0 }
  else
    cb

/-- `onFailure`: increment `failureCount` and record `lastFailureTime`;
from HALF_OPEN reopen immediately, otherwise open once
`failureCount >= failureThreshold`; in both opening branches
`nextAttemptTime := Date.now() + resetTimeout`. -/
def onFailure (cb : CircuitBreaker) (now : Nat) : CircuitBreaker :=
  let cb := { cb with failureCount := cb.failureCount + 1, lastFailureTime := some now }
  if cb.state = .HALF_OPEN then
    { cb with state := .OPEN, nextAttemptTime := some (now + cb.config.resetTimeout) }
  else if cb.failureCount ≥ cb.config.failureThreshold then
    { cb with state := .OPEN, nextAttemptTime := some (now + cb.config.resetTimeout) }
  else
    cb

/-- Possible outcomes of one `execute` call. -/
inductive ExecResult where
  | workOk : ExecResult
  | workErr : JsError → ExecResult
  | fallbackOk : ExecResult
  | fallbackErr : JsError → ExecResult
  | circuitOpenErr : JsError → ExecResult
deriving DecidableEq, Repr

/-- One `execute` call observed from outside: its result, the breaker
afterwards, whether the wrapped work was invoked, and — when it was — the
breaker state at the moment of invocation. -/
structure ExecStep where
  result : ExecResult
  breaker : CircuitBreaker
  invoked : Bool
  stateAtInvoke : Option CircuitBreakerState

/-- `handleOpenCircuit`: build the open-circuit error; with a fallback
handler return its value (a thrown fallback error propagates), otherwise
propagate the open-circuit error itself. -/
def handleOpenCircuit (cb : CircuitBreaker) : ExecResult :=
  match cb.config.fallbackHandler with
  | some handler =>
    match handler openCircuitError with
    | .ok _ => .fallbackOk
    | .error fallbackError => .fallbackErr fallbackError
  | none => .circuitOpenErr openCircuitError

/-- Running the wrapped operation through
`operation().pipe(tap(() => this.onSuccess()), catchError(... this.onFailure() ...))`. -/
def runOperation (cb : CircuitBreaker) (now : Nat) (work : Except JsError Unit) : ExecStep :=
  match work with
  | .ok _ =>
    { result := .workOk, breaker := cb.onSuccess, invoked := true, stateAtInvoke := some cb.state }
  | .error e =>
    { result := .workErr e, breaker := cb.onFailure now, invoked := true,
      stateAtInvoke := some cb.state }

/-- `execute`: when OPEN and due for a probe, move to HALF_OPEN first and run
the work; when OPEN and not due, short-circuit via `handleOpenCircuit`
without invoking the work; otherwise run the work. -/
def execute (cb : CircuitBreaker) (now : Nat) (work : Except JsError Unit) : ExecStep :=
  if cb.state = .OPEN then
    if cb.shouldAttemptReset now then
      runOperation { cb with state := .HALF_OPEN } now work
    else
      { result := cb.handleOpenCircuit, breaker := cb, invoked := false, stateAtInvoke := none }
  else
    runOperation cb now work

/-- `reset()`: back to a pristine CLOSED breaker, keeping only the config. -/
def reset (cb : CircuitBreaker) : CircuitBreaker :=
  { cb with
    state := .CLOSED
    failureCount := 0
    successCount := 0
    lastFailureTime := none
    nextAttemptTime := none }

end CircuitBreaker

/-- Folding a list of work outcomes through `execute`, all at time `t`. -/
def runCalls (t : Nat) : CircuitBreaker → List (Except JsError Unit) → CircuitBreaker
  | cb, [] => cb
  | cb, w :: ws => runCalls t ((cb.execute t w).breaker) ws

/-- Number of failing outcomes in a list of work outcomes. -/
def errCount : List (Except JsError Unit) → Nat
  | [] => 0
  | .ok _ :: ws => errCount ws
  | .error _ :: ws => errCount ws + 1

/-!
## Retry executor — `ResilientHttpService.applyRetryLogic`

The service builds the merged config
`{maxAttempts: 3, delay: 1000, exponentialBackoff: true, retryCondition: <default>, ...retryConfig}`
and pipes the request through
`retryWhen(errors => errors.pipe(scan((retryCount, error) => {...}, 0), delay(config.delay)))`.

rxjs semantics of that pipeline: every error of the source is fed to the
`scan`.  The accumulator `retryCount` starts at `0`; when
`retryCount >= maxAttempts` or the retry condition rejects the error, the
`scan` callback rethrows the error and the whole pipeline fails with it;
otherwise the accumulator becomes `retryCount + 1`, the notifier waits
`config.delay` milliseconds (a constant — the `exponentialBackoff` flag is
never read) and the source is re-subscribed, invoking the work again.
-/

/-- `RetryConfig` after the merge with the defaults in `applyRetryLogic`.
`exponentialBackoff` is carried because the source config has it; the
executed pipeline never reads it. -/
structure RetryConfig where
  maxAttempts : Nat := 3
  delay : Nat := 1000
  exponentialBackoff : Bool := true
  retryCondition : JsError → Bool

/-- The default retry condition:
`error.response?.status >= 500 || error.code === 'ECONNRESET'`
(a missing status compares as false). -/
def defaultRetryCondition (e : JsError) : Bool :=
  (match e.status with
   | some s => 500 ≤ s
   | none => false) || e.code = some "ECONNRESET"

/-- The observable outcome of one whole retried request: the final result,
the total number of times the underlying work was invoked (each rxjs
re-subscription re-issues the request), and the list of waits (in ms)
slept between consecutive invocations, in order. -/
structure RetryRun where
  result : Except JsError Unit
  invocations : Nat
  waits : List Nat
deriving Repr

/-- The retry loop of `applyRetryLogic`, unrolled.  `work i` is the outcome
of the `i`-th invocation of the underlying request (1-based).
`remaining` is `maxAttempts - retryCount`, where `retryCount` is the
`scan` accumulator of the source: the callback rethrows exactly when
`retryCount >= maxAttempts` (i.e. `remaining = 0`) or the retry condition
rejects the error; otherwise the notifier waits `delayMs` and the source
is re-subscribed. -/
def retryGo (work : Nat → Except JsError Unit) (cond : JsError → Bool) (delayMs : Nat) :
    Nat → Nat → RetryRun
  | 0, i =>
    match work i with
    | .ok _ => { result := .ok (), invocations := i, waits := [] }
    | .error e => { result := .error e, invocations := i, waits := [] }
  | r + 1, i =>
    match work i with
    | .ok _ => { result := .ok (), invocations := i, waits := [] }
    | .error e =>
      if cond e then
        let rest := retryGo work cond delayMs r (i + 1)
        { rest with waits := delayMs :: rest.waits }
      else
        { result := .error e, invocations := i, waits := [] }

/-- `applyRetryLogic`: run the work with the retry pipeline, starting at
invocation 1 with a `scan` accumulator of 0 (`remaining = maxAttempts`). -/
def applyRetryLogic (work : Nat → Except JsError Unit) (config : RetryConfig) : RetryRun :=
  retryGo work config.retryCondition config.delay config.maxAttempts 1

/-!
## Rate governor — `RateLimitGuard`

State per client key: `{count, resetTime, lastRequest}`.  `canActivate`
resets the record when there is none or `now > resetTime` (admitting
immediately), otherwise increments `count`, stamps `lastRequest`, and
dispatches on the strategy.
-/

/-- The two admission strategies of `RateLimitGuard`. -/
inductive RateLimitStrategy where
  | delay
  | reject
deriving DecidableEq, Repr

/-- `RateLimitOptions` after the constructor merge
`{windowMs: 900000, max: 100, strategy: 'delay', delayMs: 1000, maxDelayMs: 30000, delayMultiplier: 1.5, ...options}`.
`delayAfter` keeps the caller's value when given; `delayAfterResolved`
applies the `Math.floor(max * 0.8)` default. -/
structure RateLimitOptions where
  windowMs : Nat := 900000
  max : Nat := 100
  strategy : RateLimitStrategy := .delay
  delayAfter : Option Nat := none
  delayMs : ℚ := 1000
  maxDelayMs : ℚ := 30000
  delayMultiplier : ℚ := 3 / 2
  enableLogging : Bool := false
deriving Repr

/-- `delayAfter` after the constructor: the given value, or
`Math.floor(max * 0.8)` (exact for the integral `max` of the source). -/
def RateLimitOptions.delayAfterResolved (o : RateLimitOptions) : Nat :=
  match o.delayAfter with
  | some d => d
  | none => 4 * o.max / 5

/-- The per-client record `{count, resetTime, lastRequest}`. -/
structure RateRecord where
  count : Nat
  resetTime : Nat
  lastRequest : Nat
deriving DecidableEq, Repr

/-- Observable outcome of one `canActivate` call: admitted after waiting
`delayMs` (0 when no delay was applied), rejected with HTTP 429, or a
thrown `TypeError` (the guard crashing before it can admit). -/
inductive RateOutcome where
  | admitted : ℚ → RateOutcome
  | rejected : RateOutcome
  | typeError : RateOutcome
deriving DecidableEq, Repr

/-- One `canActivate` call: its outcome and the stored record afterwards. -/
structure RateStep where
  result : RateOutcome
  record : RateRecord
deriving DecidableEq, Repr

/-- The two jitter lines of `handleDelayStrategy`:
`jitter = delay * 0.1 * (Math.random() - 0.5); delay = Math.max(0, delay + jitter)`,
with `r` the value of `Math.random()` (in `[0, 1)`). -/
def applyJitter (delay : ℚ) (r : ℚ) : ℚ :=
  max 0 (delay + delay * (1 / 10) * (r - 1 / 2))

/-- `handleRejectStrategy`: throw HTTP 429 when `count > max`, else admit. -/
def handleRejectStrategy (o : RateLimitOptions) (record : RateRecord) : RateOutcome :=
  if record.count > o.max then .rejected else .admitted 0

/-- `handleDelayStrategy`: admit immediately at or under `delayAfter`;
otherwise compute the progressive delay
`min (delayMs * multiplier ^ (excess - 1)) maxDelayMs`, jitter it, and —
when `enableLogging` is set — evaluate
`this.getKey(record as any)` while building the log line, which reads
`record.ip` (undefined) and then `record.connection.remoteAddress`:
`record.connection` is undefined, so a `TypeError` is thrown before the
sleep; with logging off, sleep the jittered delay and admit. -/
def handleDelayStrategy (o : RateLimitOptions) (record : RateRecord) (r : ℚ) : RateOutcome :=
  if record.count ≤ o.delayAfterResolved then
    .admitted 0
  else
    let excessRequests := record.count - o.delayAfterResolved
    let delay1 := o.delayMs * o.delayMultiplier ^ (excessRequests - 1)
    let delay2 := min delay1 o.maxDelayMs
    let delay3 := applyJitter delay2 r
    if o.enableLogging then .typeError else .admitted delay3

/-- `canActivate` for one client key.  `st` is the stored record for the
key (none on the first request), `now` is `Date.now()`, `r` the
`Math.random()` draw used if a delay is computed. -/
def rateCanActivate (o : RateLimitOptions) (st : Option RateRecord) (now : Nat) (r : ℚ) :
    RateStep :=
  let fresh : RateRecord := { count := 1, resetTime := now + o.windowMs, lastRequest := now }
  match st with
  | none => { result := .admitted 0, record := fresh }
  | some record =>
    if now > record.resetTime then
      { result := .admitted 0, record := fresh }
    else
      let record2 := { record with count := record.count + 1, lastRequest := now }
      if o.strategy = .reject then
        { result := handleRejectStrategy o record2, record := record2 }
      else
        { result := handleDelayStrategy o record2 r, record := record2 }

/-- Stored record after `n` requests from one client, all at time `t0`,
starting from no record. -/
def rateStateAfter (o : RateLimitOptions) (t0 : Nat) (r : ℚ) : Nat → Option RateRecord
  | 0 => none
  | n + 1 => some (rateCanActivate o (rateStateAfter o t0 r n) t0 r).record

/-- Outcome of the `n`-th request (1-based) from one client, all at `t0`. -/
def rateResultOf (o : RateLimitOptions) (t0 : Nat) (r : ℚ) (n : Nat) : RateOutcome :=
  (rateCanActivate o (rateStateAfter o t0 r (n - 1)) t0 r).result

/-- Spec-side definition, following the specification's words (§7): a
*specific, inspectable error kind* is an error whose `name` differs from
the plain generic `"Error"` constructor, so callers can distinguish it
from an underlying work error without parsing the message text. -/
def specificInspectableErrorKind (e : JsError) : Prop :=
  e.name ≠ "Error"

/-!
## Invariant of the breaker under repeated calls at a fixed time
-/

/-- Invariant of a breaker that started fresh with config `cfg` and has
absorbed `k` failing work outcomes (interleaved with any number of
successes) at time `t`: below the threshold it is CLOSED counting the
failures; at or above it it is OPEN with the probe scheduled for
`t + resetTimeout`. -/
def cbReached (cfg : CircuitBreakerConfig) (t k : Nat) (cb : CircuitBreaker) : Prop :=
  cb.config = cfg ∧
  (k < cfg.failureThreshold →
    cb.state = .CLOSED ∧ cb.failureCount = k ∧ cb.nextAttemptTime = none) ∧
  (cfg.failureThreshold ≤ k →
    cb.state = .OPEN ∧ cb.failureCount = cfg.failureThreshold ∧
      cb.nextAttemptTime = some (t + cfg.resetTimeout))

/-!
## Concrete instances used by counterexamples and witnesses
-/

/-- A server-side (HTTP 500) error, which satisfies the default retry
condition. -/
def err500 : JsError :=
  { name := "Error", message := "Internal Server Error", status := some 500, code := none }

/-- A work function failing every invocation with an HTTP 500 error. -/
def alwaysFail500 : Nat → Except JsError Unit := fun _ => .error err500

/-- The merged retry config for a caller passing `{}`: all defaults. -/
def retryCfg3 : RetryConfig := { retryCondition := defaultRetryCondition }

/-- The concrete breaker config of the spec's scenario:
`failureThreshold = 2`, `resetTimeout = 100`. -/
def cbCfg2 : CircuitBreakerConfig := { failureThreshold := 2, resetTimeout := 100 }

/-- A failing work outcome (HTTP 503). -/
def errW : JsError := { name := "Error", message := "boom", status := some 503, code := none }

/-- A breaker that is OPEN with a probe scheduled at time 100 and no
fallback handler. -/
def cbOpenNotDue : CircuitBreaker :=
  { state := .OPEN, failureCount := 5, successCount := 0, lastFailureTime := some 0,
    nextAttemptTime := some 100, config := {} }

/-- A breaker that is OPEN, due for a probe after time 100 (config of the
spec scenario). -/
def cbOpenDueEx : CircuitBreaker :=
  { state := .OPEN, failureCount := 2, successCount := 0, lastFailureTime := some 0,
    nextAttemptTime := some 100, config := cbCfg2 }

/-- A breaker currently HALF_OPEN (probe in flight). -/
def cbHalfOpenEx : CircuitBreaker :=
  { state := .HALF_OPEN, failureCount := 2, successCount := 3, lastFailureTime := some 0,
    nextAttemptTime := some 100, config := cbCfg2 }

/-- Reject-strategy options: `max = 3` per 100 ms window. -/
def optsRejectEx : RateLimitOptions := { strategy := .reject, max := 3, windowMs := 100 }

/-- Delay-strategy options with `enableLogging` switched on and delaying
from the second request in a window. -/
def optsLogEx : RateLimitOptions := { strategy := .delay, delayAfter := some 1, enableLogging := true }

/-- A stored record for a client that has made one request at time 0 in a
window resetting at time 1000. -/
def recEx : RateRecord := { count := 1, resetTime := 1000, lastRequest := 0 }

/-!
## Characterization lemmas for the breaker operations
-/

namespace CircuitBreaker

lemma onSuccess_of_not_half (cb : CircuitBreaker) (hs : cb.state ≠ .HALF_OPEN) :
    cb.onSuccess = { cb with successCount := cb.successCount + 1 } := by
  simp [onSuccess, hs]

lemma onSuccess_of_half (cb : CircuitBreaker) (hs : cb.state = .HALF_OPEN) :
    cb.onSuccess =
      { cb with state := .CLOSED, failureCount := 0, successCount := cb.successCount + 1 } := by
  simp [onSuccess, hs]

lemma onFailure_of_half (cb : CircuitBreaker) (t : Nat) (hs : cb.state = .HALF_OPEN) :
    cb.onFailure t =
      { cb with
        state := .OPEN
        failureCount := cb.failureCount + 1
        lastFailureTime := some t
        nextAttemptTime := some (t + cb.config.resetTimeout) } := by
  simp [onFailure, hs]

lemma onFailure_below (cb : CircuitBreaker) (t : Nat) (hs : cb.state ≠ .HALF_OPEN)
    (hlt : cb.failureCount + 1 < cb.config.failureThreshold) :
    cb.onFailure t =
      { cb with failureCount := cb.failureCount + 1, lastFailureTime := some t } := by
  simp only [onFailure]
  rw [if_neg (by simpa using hs), if_neg (by simpa using by omega)]

lemma onFailure_reaching (cb : CircuitBreaker) (t : Nat) (hs : cb.state ≠ .HALF_OPEN)
    (hge : cb.config.failureThreshold ≤ cb.failureCount + 1) :
    cb.onFailure t =
      { cb with
        state := .OPEN
        failureCount := cb.failureCount + 1
        lastFailureTime := some t
        nextAttemptTime := some (t + cb.config.resetTimeout) } := by
  simp only [onFailure]
  rw [if_neg (by simpa using hs), if_pos (by simpa using hge)]

lemma shouldAttemptReset_eq_false (cb : CircuitBreaker) (now t : Nat)
    (hn : cb.nextAttemptTime = some t) (hlt : now < t) :
    cb.shouldAttemptReset now = false := by
  simp only [shouldAttemptReset, hn]
  exact decide_eq_false (by omega)

lemma shouldAttemptReset_eq_true (cb : CircuitBreaker) (now t : Nat)
    (hn : cb.nextAttemptTime = some t) (hle : t ≤ now) :
    cb.shouldAttemptReset now = true := by
  simp only [shouldAttemptReset, hn]
  exact decide_eq_true (by omega)

lemma execute_of_not_open (cb : CircuitBreaker) (now : Nat) (w : Except JsError Unit)
    (hs : cb.state ≠ .OPEN) : cb.execute now w = runOperation cb now w := by
  simp [execute, hs]

lemma execute_open_not_due (cb : CircuitBreaker) (now : Nat) (w : Except JsError Unit)
    (hs : cb.state = .OPEN) (hr : cb.shouldAttemptReset now = false) :
    cb.execute now w =
      { result := cb.handleOpenCircuit
        breaker := cb
        invoked := false
        stateAtInvoke := none } := by
  simp [execute, hs, hr]

lemma execute_open_due (cb : CircuitBreaker) (now : Nat) (w : Except JsError Unit)
    (hs : cb.state = .OPEN) (hr : cb.shouldAttemptReset now = true) :
    cb.execute now w = runOperation { cb with state := .HALF_OPEN } now w := by
  simp [execute, hs, hr]

end CircuitBreaker

lemma cbReached_step (cfg : CircuitBreakerConfig) (t k : Nat) (cb : CircuitBreaker)
    (hRT : 0 < cfg.resetTimeout) (h : cbReached cfg t k cb) (w : Except JsError Unit) :
    cbReached cfg t (k + errCount [w]) ((cb.execute t w).breaker) := by
  obtain ⟨hcfg, hlt, hge⟩ := h
  by_cases hk : k < cfg.failureThreshold
  · obtain ⟨hs, hf, hn⟩ := hlt hk
    have hsno : cb.state ≠ .OPEN := by rw [hs]; exact fun hcon => by cases hcon
    have hsnh : cb.state ≠ .HALF_OPEN := by rw [hs]; exact fun hcon => by cases hcon
    cases w with
    | ok u =>
      rw [show k + errCount [Except.ok u] = k from rfl,
        cb.execute_of_not_open t _ hsno,
        show (CircuitBreaker.runOperation cb t (.ok u)).breaker = cb.onSuccess from rfl,
        cb.onSuccess_of_not_half hsnh]
      exact ⟨hcfg, fun _ => ⟨hs, hf, hn⟩, fun hc => absurd hc (by omega)⟩
    | error e =>
      rw [show k + errCount [Except.error e] = k + 1 from rfl,
        cb.execute_of_not_open t _ hsno,
        show (CircuitBreaker.runOperation cb t (.error e)).breaker = cb.onFailure t from rfl]
      by_cases hth : cfg.failureThreshold ≤ k + 1
      · rw [cb.onFailure_reaching t hsnh (by rw [hcfg, hf]; exact hth)]
        refine ⟨hcfg, fun hc => absurd hc (by omega), fun _ => ⟨rfl, ?_, ?_⟩⟩
        · show cb.failureCount + 1 = cfg.failureThreshold
          omega
        · show some (t + cb.config.resetTimeout) = some (t + cfg.resetTimeout)
          rw [hcfg]
      · rw [cb.onFailure_below t hsnh (by rw [hcfg, hf]; omega)]
        exact ⟨hcfg, fun _ => ⟨hs, by rw [hf], hn⟩, fun hc => absurd hc hth⟩
  · obtain ⟨hs, hf, hn⟩ := hge (le_of_not_lt hk)
    have hr : cb.shouldAttemptReset t = false :=
      cb.shouldAttemptReset_eq_false t _ hn (by omega)
    rw [cb.execute_open_not_due t w hs hr]
    have hk2 : cfg.failureThreshold ≤ k + errCount [w] :=
      le_trans (le_of_not_lt hk) (Nat.le_add_right _ _)
    exact ⟨hcfg, fun hc => absurd hk2 (not_le.mpr hc), fun _ => ⟨hs, hf, hn⟩⟩

lemma cbReached_runCalls (cfg : CircuitBreakerConfig) (t : Nat)
    (hRT : 0 < cfg.resetTimeout) :
    ∀ (ws : List (Except JsError Unit)) (k : Nat) (cb : CircuitBreaker),
      cbReached cfg t k cb → cbReached cfg t (k + errCount ws) (runCalls t cb ws)
  | [], k, cb, h => by simpa [runCalls, errCount] using h
  | w :: ws, k, cb, h => by
    have hstep := cbReached_step cfg t k cb hRT h w
    have hrest := cbReached_runCalls cfg t hRT ws (k + errCount [w]) _ hstep
    have harith : k + errCount [w] + errCount ws = k + errCount (w :: ws) := by
      cases w with
      | ok u => simp [errCount]
      | error e => simp [errCount]; omega
    rw [harith] at hrest
    simpa [runCalls] using hrest

lemma cbReached_init (cfg : CircuitBreakerConfig) (t : Nat)
    (hTH : 1 ≤ cfg.failureThreshold) : cbReached cfg t 0 (mkCircuitBreaker cfg) :=
  ⟨rfl, fun _ => ⟨rfl, rfl, rfl⟩, fun hc => absurd hc (by omega)⟩

lemma errCount_replicate (n : Nat) (e : JsError) :
    errCount (List.replicate n (.error e)) = n := by
  induction n with
  | zero => rfl
  | succ n ih => simp [List.replicate_succ, errCount, ih]

/-!
## Lemmas about the retry pipeline
-/

lemma retryGo_alwaysFail (errs : Nat → JsError) (cond : JsError → Bool) (d : Nat)
    (hcond : ∀ j, cond (errs j) = true) :
    ∀ (remaining i : Nat),
      retryGo (fun j => .error (errs j)) cond d remaining i =
        { result := .error (errs (i + remaining))
          invocations := i + remaining
          waits := List.replicate remaining d }
  | 0, i => by simp [retryGo]
  | r + 1, i => by
    have ih := retryGo_alwaysFail errs cond d hcond r (i + 1)
    simp only [retryGo, hcond, if_true, ih, List.replicate_succ]
    rw [show i + 1 + r = i + (r + 1) from by omega]

lemma retryGo_invocations_le (work : Nat → Except JsError Unit) (cond : JsError → Bool)
    (d : Nat) : ∀ (remaining i : Nat),
      (retryGo work cond d remaining i).invocations ≤ i + remaining
  | 0, i => by
    cases hw : work i <;> simp [retryGo, hw]
  | r + 1, i => by
    have ih := retryGo_invocations_le work cond d r (i + 1)
    cases hw : work i with
    | ok u => simp [retryGo, hw]
    | error e =>
      by_cases hc : cond e = true
      · simp only [retryGo, hw, hc, if_true]
        omega
      · simp only [retryGo, hw, if_neg hc]
        omega

lemma applyRetryLogic_alwaysFail (cfg : RetryConfig) (errs : Nat → JsError)
    (hcond : ∀ i, cfg.retryCondition (errs i) = true) :
    applyRetryLogic (fun i => .error (errs i)) cfg =
      { result := .error (errs (cfg.maxAttempts + 1))
        invocations := cfg.maxAttempts + 1
        waits := List.replicate cfg.maxAttempts cfg.delay } := by
  rw [applyRetryLogic, retryGo_alwaysFail errs cfg.retryCondition cfg.delay hcond
    cfg.maxAttempts 1]
  rw [show 1 + cfg.maxAttempts = cfg.maxAttempts + 1 from by omega]

/-!
## Lemmas about the rate governor
-/

lemma rateStateAfter_in_window (o : RateLimitOptions) (t0 : Nat) (r : ℚ) :
    ∀ n, 1 ≤ n → rateStateAfter o t0 r n =
      some { count := n, resetTime := t0 + o.windowMs, lastRequest := t0 }
  | 1, _ => by simp [rateStateAfter, rateCanActivate]
  | n + 2, _ => by
    have ih := rateStateAfter_in_window o t0 r (n + 1) (by omega)
    show some (rateCanActivate o (rateStateAfter o t0 r (n + 1)) t0 r).record = _
    rw [ih]
    simp only [rateCanActivate]
    rw [if_neg (show ¬ t0 > t0 + o.windowMs from by omega)]
    by_cases hst : o.strategy = .reject <;> simp [hst]

/-!
## Claim theorems
-/

/-- C1 counterexample: with the merged default `maxAttempts = 3` and a work
function failing every invocation with a retryable HTTP 500 error, the
retry pipeline of `applyRetryLogic` invokes the work 4 times — not the 3
times the claim states. -/
theorem retryMaxAttemptsCounterexample :
    (applyRetryLogic alwaysFail500 retryCfg3).invocations = 4 ∧
    ¬ (applyRetryLogic alwaysFail500 retryCfg3).invocations = 3 :=
  ⟨by decide, by decide⟩

/-- C1 (amended): for every retry config and a work function failing every
invocation with errors accepted by the retry condition, `applyRetryLogic`
invokes the work exactly `maxAttempts + 1` times (the initial attempt plus
`maxAttempts` retries), waits `delay` between consecutive invocations, and
propagates the failure of the last invocation; for any work function the
invocation count never exceeds `maxAttempts + 1`. -/
theorem retryInvokesMaxAttemptsPlusOne (cfg : RetryConfig) (errs : Nat → JsError)
    (hcond : ∀ i, cfg.retryCondition (errs i) = true) :
    (applyRetryLogic (fun i => .error (errs i)) cfg).invocations = cfg.maxAttempts + 1 ∧
    (applyRetryLogic (fun i => .error (errs i)) cfg).result
      = .error (errs (cfg.maxAttempts + 1)) ∧
    (applyRetryLogic (fun i => .error (errs i)) cfg).waits
      = List.replicate cfg.maxAttempts cfg.delay ∧
    ∀ (work : Nat → Except JsError Unit),
      (applyRetryLogic work cfg).invocations ≤ cfg.maxAttempts + 1 := by
  have h := applyRetryLogic_alwaysFail cfg errs hcond
  refine ⟨by rw [h], by rw [h], by rw [h], fun work => ?_⟩
  have hle := retryGo_invocations_le work cfg.retryCondition cfg.delay cfg.maxAttempts 1
  show (retryGo work cfg.retryCondition cfg.delay cfg.maxAttempts 1).invocations
    ≤ cfg.maxAttempts + 1
  omega

/-- Witness for C1 (amended) at the default config and the constant HTTP
500 error. -/
theorem retryInvokesMaxAttemptsPlusOneWitness :
    (∀ i, retryCfg3.retryCondition ((fun _ : Nat => err500) i) = true) ∧
    ((applyRetryLogic (fun i => .error ((fun _ : Nat => err500) i)) retryCfg3).invocations
        = retryCfg3.maxAttempts + 1 ∧
     (applyRetryLogic (fun i => .error ((fun _ : Nat => err500) i)) retryCfg3).result
        = .error ((fun _ : Nat => err500) (retryCfg3.maxAttempts + 1)) ∧
     (applyRetryLogic (fun i => .error ((fun _ : Nat => err500) i)) retryCfg3).waits
        = List.replicate retryCfg3.maxAttempts retryCfg3.delay ∧
     ∀ (work : Nat → Except JsError Unit),
       (applyRetryLogic work retryCfg3).invocations ≤ retryCfg3.maxAttempts + 1) :=
  ⟨fun _ => (by decide : retryCfg3.retryCondition err500 = true),
    retryInvokesMaxAttemptsPlusOne retryCfg3 (fun _ => err500)
      (fun _ => (by decide : retryCfg3.retryCondition err500 = true))⟩

/-- C5: the executed retry pipeline waits the constant `config.delay`
(1000 ms) before every retry — `[1000, 1000, 1000]` for three retries —
even though the merged config carries `exponentialBackoff: true`; no
exponential growth `baseDelay * base^(attemptIndex-1)` (e.g.
`[1000, 2000, 4000]` for base 2) is applied, and the executed config has
no `exponentialBase`/`maxDelay` fields at all. -/
theorem retryDelayConstantNotExponential :
    retryCfg3.exponentialBackoff = true ∧
    (applyRetryLogic alwaysFail500 retryCfg3).waits = [1000, 1000, 1000] ∧
    ¬ (applyRetryLogic alwaysFail500 retryCfg3).waits = [1000, 2000, 4000] :=
  ⟨rfl, by decide, by decide⟩

/-- C6: under the delay strategy with `enableLogging: true`, the second
request in a window (one past `delayAfter = 1`) makes `canActivate` throw
a `TypeError` — `this.getKey(record as any)` dereferences
`record.connection`, which is undefined — instead of admitting the
request; with logging off, the very same call admits after the computed
1000 ms delay. -/
theorem delayStrategyLoggingTypeError :
    (rateCanActivate optsLogEx (some recEx) 500 (1 / 2)).result = .typeError ∧
    (rateCanActivate { optsLogEx with enableLogging := false }
      (some recEx) 500 (1 / 2)).result = .admitted 1000 := by
  constructor
  · decide
  · show handleDelayStrategy { optsLogEx with enableLogging := false }
        { count := recEx.count + 1, resetTime := recEx.resetTime, lastRequest := 500 } (1 / 2)
      = .admitted 1000
    rw [handleDelayStrategy]
    norm_num [RateLimitOptions.delayAfterResolved, optsLogEx, recEx, applyJitter]

/-- C8: the jitter actually applied to a clamped delay of 1000 ms spans
only `[950, 1050)` — a ±5% perturbation — for every value of the random
source in `[0, 1)`; the ±10% endpoints 900 and 1100 claimed by the spec
(and by the comment in the source) are never attained. -/
theorem jitterIsPlusMinusFivePercent (r : ℚ) (h0 : 0 ≤ r) (h1 : r < 1) :
    950 ≤ applyJitter 1000 r ∧ applyJitter 1000 r < 1050 := by
  have hinner : (1000 : ℚ) + 1000 * (1 / 10) * (r - 1 / 2) = 950 + 100 * r := by ring
  rw [applyJitter, hinner, max_eq_right (by linarith : (0 : ℚ) ≤ 950 + 100 * r)]
  constructor <;> linarith

/-- Witness for C8 at `r = 0` (the random draw producing the smallest
jittered delay). -/
theorem jitterIsPlusMinusFivePercentWitness :
    0 ≤ (0 : ℚ) ∧ (0 : ℚ) < 1 ∧
    (950 ≤ applyJitter 1000 0 ∧ applyJitter 1000 0 < 1050) :=
  ⟨le_refl 0, by norm_num, jitterIsPlusMinusFivePercent 0 (le_refl 0) (by norm_num)⟩

/-- C2: from a fresh breaker with `failureThreshold ≥ 1` and
`resetTimeout > 0`, any `n ≥ failureThreshold` consecutive failing calls
through `execute` (all at time `t`) leave the breaker OPEN with
`nextAttemptTime = t + resetTimeout`, and a subsequent call at any time
before `nextAttemptTime` is short-circuited without invoking the wrapped
work and without changing the breaker. -/
theorem breakerOpensAfterThreshold (cfg : CircuitBreakerConfig) (n t tq : Nat)
    (e : JsError) (w : Except JsError Unit)
    (hTH : 1 ≤ cfg.failureThreshold) (hRT : 0 < cfg.resetTimeout)
    (hn : cfg.failureThreshold ≤ n) (htq : tq < t + cfg.resetTimeout) :
    (runCalls t (mkCircuitBreaker cfg) (List.replicate n (.error e))).state = .OPEN ∧
    (runCalls t (mkCircuitBreaker cfg) (List.replicate n (.error e))).nextAttemptTime
      = some (t + cfg.resetTimeout) ∧
    ((runCalls t (mkCircuitBreaker cfg) (List.replicate n (.error e))).execute tq w).invoked
      = false ∧
    ((runCalls t (mkCircuitBreaker cfg) (List.replicate n (.error e))).execute tq w).breaker
      = runCalls t (mkCircuitBreaker cfg) (List.replicate n (.error e)) := by
  obtain ⟨hcfg, hlt, hge⟩ :=
    cbReached_runCalls cfg t hRT (List.replicate n (.error e)) 0 _ (cbReached_init cfg t hTH)
  rw [errCount_replicate] at hge
  obtain ⟨hs, hf, hna⟩ := hge (by omega)
  have hr := CircuitBreaker.shouldAttemptReset_eq_false _ tq _ hna htq
  rw [CircuitBreaker.execute_open_not_due _ tq w hs hr]
  exact ⟨hs, hna, rfl, rfl⟩

/-- Witness for C2 at the spec's concrete scenario: threshold 2, reset
timeout 100, two failing calls at time 0, then a call at time 50. -/
theorem breakerOpensAfterThresholdWitness :
    (1 ≤ cbCfg2.failureThreshold ∧ 0 < cbCfg2.resetTimeout ∧
      cbCfg2.failureThreshold ≤ 2 ∧ 50 < 0 + cbCfg2.resetTimeout) ∧
    ((runCalls 0 (mkCircuitBreaker cbCfg2) (List.replicate 2 (.error errW))).state = .OPEN ∧
     (runCalls 0 (mkCircuitBreaker cbCfg2) (List.replicate 2 (.error errW))).nextAttemptTime
        = some (0 + cbCfg2.resetTimeout) ∧
     ((runCalls 0 (mkCircuitBreaker cbCfg2)
        (List.replicate 2 (.error errW))).execute 50 (.ok ())).invoked = false ∧
     ((runCalls 0 (mkCircuitBreaker cbCfg2)
        (List.replicate 2 (.error errW))).execute 50 (.ok ())).breaker
        = runCalls 0 (mkCircuitBreaker cbCfg2) (List.replicate 2 (.error errW))) :=
  ⟨⟨by decide, by decide, by decide, by decide⟩,
    breakerOpensAfterThreshold cbCfg2 2 0 50 errW (.ok ())
      (by decide) (by decide) (by decide) (by decide)⟩

/-- C3: for a breaker that is OPEN with `nextAttemptTime` in the past, the
next `execute` call moves to HALF_OPEN before invoking the work (the probe
runs in HALF_OPEN), the work is invoked, and a successful probe leaves the
breaker CLOSED with `failureCount = 0`. -/
theorem breakerSelfHeals (cb : CircuitBreaker) (ta now : Nat) (w : Except JsError Unit)
    (hs : cb.state = .OPEN) (hn : cb.nextAttemptTime = some ta) (hd : ta ≤ now) :
    (cb.execute now w).stateAtInvoke = some .HALF_OPEN ∧
    (cb.execute now w).invoked = true ∧
    (w = .ok () →
      (cb.execute now w).breaker.state = .CLOSED ∧
      (cb.execute now w).breaker.failureCount = 0) := by
  have hr := cb.shouldAttemptReset_eq_true now ta hn hd
  rw [cb.execute_open_due now w hs hr]
  cases w with
  | ok u => exact ⟨rfl, rfl, fun _ => ⟨rfl, rfl⟩⟩
  | error e => exact ⟨rfl, rfl, fun hcon => Except.noConfusion hcon⟩

/-- Witness for C3: the OPEN breaker of the spec scenario probed
successfully at time 150 (past its `nextAttemptTime` of 100). -/
theorem breakerSelfHealsWitness :
    (cbOpenDueEx.state = .OPEN ∧ cbOpenDueEx.nextAttemptTime = some 100 ∧ 100 ≤ 150) ∧
    ((cbOpenDueEx.execute 150 (.ok ())).stateAtInvoke = some .HALF_OPEN ∧
     (cbOpenDueEx.execute 150 (.ok ())).invoked = true ∧
     ((.ok () : Except JsError Unit) = .ok () →
       (cbOpenDueEx.execute 150 (.ok ())).breaker.state = .CLOSED ∧
       (cbOpenDueEx.execute 150 (.ok ())).breaker.failureCount = 0)) :=
  ⟨⟨rfl, rfl, by decide⟩,
    breakerSelfHeals cbOpenDueEx 100 150 (.ok ()) rfl rfl (by decide)⟩

/-- C4: from HALF_OPEN, a failing probe propagates the work's error and
returns the breaker to OPEN with `nextAttemptTime` recomputed as the
failure time plus `resetTimeout`. -/
theorem breakerReopensOnFailedProbe (cb : CircuitBreaker) (now : Nat) (e : JsError)
    (hs : cb.state = .HALF_OPEN) :
    (cb.execute now (.error e)).result = .workErr e ∧
    (cb.execute now (.error e)).breaker.state = .OPEN ∧
    (cb.execute now (.error e)).breaker.nextAttemptTime
      = some (now + cb.config.resetTimeout) := by
  have hsno : cb.state ≠ .OPEN := by rw [hs]; intro hcon; cases hcon
  rw [cb.execute_of_not_open now _ hsno]
  have hb : (CircuitBreaker.runOperation cb now (.error e)).breaker = cb.onFailure now := rfl
  refine ⟨rfl, ?_, ?_⟩
  · rw [hb, cb.onFailure_of_half now hs]
  · rw [hb, cb.onFailure_of_half now hs]

/-- Witness for C4: a HALF_OPEN breaker failing its probe at time 7. -/
theorem breakerReopensOnFailedProbeWitness :
    cbHalfOpenEx.state = .HALF_OPEN ∧
    ((cbHalfOpenEx.execute 7 (.error errW)).result = .workErr errW ∧
     (cbHalfOpenEx.execute 7 (.error errW)).breaker.state = .OPEN ∧
     (cbHalfOpenEx.execute 7 (.error errW)).breaker.nextAttemptTime
        = some (7 + cbHalfOpenEx.config.resetTimeout)) :=
  ⟨rfl, breakerReopensOnFailedProbe cbHalfOpenEx 7 errW rfl⟩

/-- C7: under the reject strategy with `max = N ≥ 1`, the `(N+1)`-th
request of a client within one window is rejected with HTTP 429 while
requests 1 through `N` are admitted immediately, and the first request
arriving after `windowResetAt` has passed starts a fresh window with
`count = 1` and is admitted. -/
theorem rejectStrategyHardLimits (o : RateLimitOptions) (t0 t1 : Nat) (r : ℚ) (N : Nat)
    (hs : o.strategy = .reject) (hm : o.max = N) (hN : 1 ≤ N)
    (ht : t0 + o.windowMs < t1) :
    rateResultOf o t0 r (N + 1) = .rejected ∧
    (∀ k, 1 ≤ k → k ≤ N → rateResultOf o t0 r k = .admitted 0) ∧
    (rateCanActivate o (rateStateAfter o t0 r (N + 1)) t1 r).result = .admitted 0 ∧
    (rateCanActivate o (rateStateAfter o t0 r (N + 1)) t1 r).record.count = 1 := by
  have hW := rateStateAfter_in_window o t0 r
  have hnext : rateCanActivate o (rateStateAfter o t0 r (N + 1)) t1 r =
      { result := .admitted 0
        record := { count := 1, resetTime := t1 + o.windowMs, lastRequest := t1 } } := by
    rw [hW (N + 1) (by omega)]
    simp only [rateCanActivate]
    rw [if_pos (show t1 > t0 + o.windowMs from ht)]
  refine ⟨?_, ?_, ?_, ?_⟩
  · rw [rateResultOf, show N + 1 - 1 = N from by omega, hW N hN]
    simp only [rateCanActivate]
    rw [if_neg (show ¬ t0 > t0 + o.windowMs from by omega), if_pos hs]
    show handleRejectStrategy o
      { count := N + 1, resetTime := t0 + o.windowMs, lastRequest := t0 } = _
    simp only [handleRejectStrategy]
    rw [if_pos (show N + 1 > o.max from by omega)]
  · intro k hk1 hkN
    cases k with
    | zero => omega
    | succ k0 =>
      cases k0 with
      | zero =>
        rw [rateResultOf]
        simp [rateStateAfter, rateCanActivate]
      | succ k1 =>
        rw [rateResultOf, show k1 + 1 + 1 - 1 = k1 + 1 from by omega,
          hW (k1 + 1) (by omega)]
        simp only [rateCanActivate]
        rw [if_neg (show ¬ t0 > t0 + o.windowMs from by omega), if_pos hs]
        show handleRejectStrategy o
          { count := k1 + 1 + 1, resetTime := t0 + o.windowMs, lastRequest := t0 } = _
        simp only [handleRejectStrategy]
        rw [if_neg (show ¬ k1 + 1 + 1 > o.max from by omega)]
  · rw [hnext]
  · rw [hnext]

/-- Witness for C7: reject strategy with `max = 3` in a 100 ms window,
four requests at time 10, then one at time 200. -/
theorem rejectStrategyHardLimitsWitness :
    (optsRejectEx.strategy = .reject ∧ optsRejectEx.max = 3 ∧ 1 ≤ 3 ∧
      10 + optsRejectEx.windowMs < 200) ∧
    (rateResultOf optsRejectEx 10 (1 / 2) (3 + 1) = .rejected ∧
     (∀ k, 1 ≤ k → k ≤ 3 → rateResultOf optsRejectEx 10 (1 / 2) k = .admitted 0) ∧
     (rateCanActivate optsRejectEx (rateStateAfter optsRejectEx 10 (1 / 2) (3 + 1))
        200 (1 / 2)).result = .admitted 0 ∧
     (rateCanActivate optsRejectEx (rateStateAfter optsRejectEx 10 (1 / 2) (3 + 1))
        200 (1 / 2)).record.count = 1) :=
  ⟨⟨rfl, rfl, by decide, by decide⟩,
    rejectStrategyHardLimits optsRejectEx 10 200 (1 / 2) 3 rfl rfl
      (by decide) (by decide)⟩

/-- C9 counterexample: the short-circuit error of an OPEN, not-yet-due
breaker with no fallback is the plain generic `Error` (name `"Error"`)
with message `'Circuit breaker is OPEN'` — not a specific, inspectable
`CircuitOpenError` kind. -/
theorem circuitOpenErrorNotSpecificKind :
    (cbOpenNotDue.execute 0 (.error errW)).result
      = .circuitOpenErr CircuitBreaker.openCircuitError ∧
    (cbOpenNotDue.execute 0 (.error errW)).invoked = false ∧
    ¬ specificInspectableErrorKind CircuitBreaker.openCircuitError :=
  ⟨by decide, by decide, fun h => h rfl⟩

/-- C9 (amended): when the breaker is OPEN, not yet due for a probe, and no
fallback handler is configured, `execute` fails immediately — without
invoking the work — with the generic `Error` whose message is
`'Circuit breaker is OPEN'`; callers can tell it apart from work errors
only by that message, not by a dedicated error class. -/
theorem openCircuitFailsWithGenericError (cb : CircuitBreaker) (ta now : Nat)
    (w : Except JsError Unit) (hs : cb.state = .OPEN)
    (hn : cb.nextAttemptTime = some ta) (hd : now < ta)
    (hf : cb.config.fallbackHandler = none) :
    (cb.execute now w).result = .circuitOpenErr CircuitBreaker.openCircuitError ∧
    (cb.execute now w).invoked = false ∧
    CircuitBreaker.openCircuitError.name = "Error" ∧
    CircuitBreaker.openCircuitError.message = "Circuit breaker is OPEN" := by
  have hr := cb.shouldAttemptReset_eq_false now ta hn hd
  rw [cb.execute_open_not_due now w hs hr]
  refine ⟨?_, rfl, rfl, rfl⟩
  show cb.handleOpenCircuit = _
  simp [CircuitBreaker.handleOpenCircuit, hf]

/-- Witness for C9 (amended): the concrete OPEN breaker probed at time 0,
before its `nextAttemptTime` of 100. -/
theorem openCircuitFailsWithGenericErrorWitness :
    (cbOpenNotDue.state = .OPEN ∧ cbOpenNotDue.nextAttemptTime = some 100 ∧
      0 < 100 ∧ cbOpenNotDue.config.fallbackHandler = none) ∧
    ((cbOpenNotDue.execute 0 (.ok ())).result
        = .circuitOpenErr CircuitBreaker.openCircuitError ∧
     (cbOpenNotDue.execute 0 (.ok ())).invoked = false ∧
     CircuitBreaker.openCircuitError.name = "Error" ∧
     CircuitBreaker.openCircuitError.message = "Circuit breaker is OPEN") :=
  ⟨⟨rfl, rfl, by decide, rfl⟩,
    openCircuitFailsWithGenericError cbOpenNotDue 100 0 (.ok ()) rfl rfl (by decide) rfl⟩

/-- C10: a successful call in CLOSED leaves `failureCount` unchanged and
only increments `successCount`; within `execute`, `failureCount` can only
decrease on a probe that ran in HALF_OPEN and closed the circuit; and from
a fresh breaker (threshold ≥ 1, reset timeout > 0) any call sequence at a
fixed time containing at least `failureThreshold` failures — successes
interleaved anywhere — leaves the breaker OPEN. -/
theorem successFrameAndCumulativeFailures :
    (∀ (cb : CircuitBreaker) (t : Nat), cb.state = .CLOSED →
      (cb.execute t (.ok ())).breaker.failureCount = cb.failureCount ∧
      (cb.execute t (.ok ())).breaker.successCount = cb.successCount + 1 ∧
      (cb.execute t (.ok ())).breaker.state = .CLOSED) ∧
    (∀ (cb : CircuitBreaker) (t : Nat) (w : Except JsError Unit),
      (cb.execute t w).breaker.failureCount < cb.failureCount →
      (cb.execute t w).stateAtInvoke = some .HALF_OPEN ∧
      (cb.execute t w).breaker.state = .CLOSED) ∧
    (∀ (cfg : CircuitBreakerConfig) (t : Nat) (ws : List (Except JsError Unit)),
      1 ≤ cfg.failureThreshold → 0 < cfg.resetTimeout →
      cfg.failureThreshold ≤ errCount ws →
      (runCalls t (mkCircuitBreaker cfg) ws).state = .OPEN) := by
  refine ⟨?_, ?_, ?_⟩
  · intro cb t hs
    have hsno : cb.state ≠ .OPEN := by rw [hs]; intro hcon; cases hcon
    have hsnh : cb.state ≠ .HALF_OPEN := by rw [hs]; intro hcon; cases hcon
    rw [cb.execute_of_not_open t _ hsno,
      show (CircuitBreaker.runOperation cb t (.ok ())).breaker = cb.onSuccess from rfl,
      cb.onSuccess_of_not_half hsnh]
    exact ⟨rfl, rfl, hs⟩
  · intro cb t w hlt
    by_cases hso : cb.state = .OPEN
    · cases hrb : cb.shouldAttemptReset t with
      | false =>
        rw [cb.execute_open_not_due t w hso hrb] at hlt
        exact absurd hlt (lt_irrefl _)
      | true =>
        rw [cb.execute_open_due t w hso hrb] at hlt ⊢
        cases w with
        | ok u => exact ⟨rfl, rfl⟩
        | error e =>
          refine absurd hlt ?_
          rw [show (CircuitBreaker.runOperation { cb with state := .HALF_OPEN } t
                (.error e)).breaker
              = CircuitBreaker.onFailure { cb with state := .HALF_OPEN } t from rfl,
            CircuitBreaker.onFailure_of_half _ t rfl]
          show ¬ cb.failureCount + 1 < cb.failureCount
          omega
    · rw [cb.execute_of_not_open t w hso] at hlt ⊢
      cases w with
      | ok u =>
        by_cases hsh : cb.state = .HALF_OPEN
        · refine ⟨?_, ?_⟩
          · show some cb.state = some CircuitBreakerState.HALF_OPEN
            rw [hsh]
          · rw [show (CircuitBreaker.runOperation cb t (.ok u)).breaker = cb.onSuccess from rfl,
              cb.onSuccess_of_half hsh]
        · refine absurd hlt ?_
          rw [show (CircuitBreaker.runOperation cb t (.ok u)).breaker = cb.onSuccess from rfl,
            cb.onSuccess_of_not_half hsh]
          show ¬ cb.failureCount < cb.failureCount
          omega
      | error e =>
        refine absurd hlt ?_
        have hb : (CircuitBreaker.runOperation cb t (.error e)).breaker
            = cb.onFailure t := rfl
        by_cases hsh : cb.state = .HALF_OPEN
        · rw [hb, cb.onFailure_of_half t hsh]
          show ¬ cb.failureCount + 1 < cb.failureCount
          omega
        · by_cases hth : cb.config.failureThreshold ≤ cb.failureCount + 1
          · rw [hb, cb.onFailure_reaching t hsh hth]
            show ¬ cb.failureCount + 1 < cb.failureCount
            omega
          · rw [hb, cb.onFailure_below t hsh (by omega)]
            show ¬ cb.failureCount + 1 < cb.failureCount
            omega
  · intro cfg t ws hTH hRT hge
    obtain ⟨hcfg2, hlt2, hge2⟩ :=
      cbReached_runCalls cfg t hRT ws 0 _ (cbReached_init cfg t hTH)
    exact (hge2 (by omega)).1

/-- Witness for C10: the three conjuncts at a fresh threshold-2 breaker, a
HALF_OPEN breaker whose probe succeeds, and two failures interleaved with
nothing. -/
theorem successFrameAndCumulativeFailuresWitness :
    ((mkCircuitBreaker cbCfg2).state = .CLOSED ∧
      ((mkCircuitBreaker cbCfg2).execute 0 (.ok ())).breaker.failureCount
        = (mkCircuitBreaker cbCfg2).failureCount ∧
      ((mkCircuitBreaker cbCfg2).execute 0 (.ok ())).breaker.successCount
        = (mkCircuitBreaker cbCfg2).successCount + 1 ∧
      ((mkCircuitBreaker cbCfg2).execute 0 (.ok ())).breaker.state = .CLOSED) ∧
    ((cbHalfOpenEx.execute 0 (.ok ())).breaker.failureCount < cbHalfOpenEx.failureCount ∧
      (cbHalfOpenEx.execute 0 (.ok ())).stateAtInvoke = some .HALF_OPEN ∧
      (cbHalfOpenEx.execute 0 (.ok ())).breaker.state = .CLOSED) ∧
    (runCalls 0 (mkCircuitBreaker cbCfg2) (List.replicate 2 (.error errW))).state = .OPEN :=
  ⟨⟨rfl, successFrameAndCumulativeFailures.1 (mkCircuitBreaker cbCfg2) 0 rfl⟩,
   ⟨by decide, successFrameAndCumulativeFailures.2.1 cbHalfOpenEx 0 (.ok ()) (by decide)⟩,
   successFrameAndCumulativeFailures.2.2 cbCfg2 0 (List.replicate 2 (.error errW))
     (by decide) (by decide) (by decide)⟩
